import Mathlib

/-!
Verification of the Auth0 client library core: the request-execution
pipeline (`src/lib/runtime.ts`) and the ID-token validation algorithm
(`IDTokenValidator.validate`).  JavaScript values relevant to the checks
are embedded as inductive data; JS truthiness and `typeof` tests are
transliterated explicitly.
-/

namespace Auth0

/-- A JSON-ish JavaScript value as it can appear as a JWT claim.  Numbers
are modelled as integers (all time arithmetic in the source is over epoch
seconds produced by `Math.floor`). -/
inductive JsonVal where
  | str (s : String)
  | num (n : Int)
  | arr (elems : List JsonVal)
  | boolean (b : Bool)
  | null

/-- JS `payload.aud.includes(this.audience)`: `includes` compares with
strict equality, and `this.audience` is a string, so only string entries
equal to it can match. -/
def audIncludes (a : List JsonVal) (s : String) : Bool :=
  match a with
  | [] => false
  | .str x :: rest => x == s || audIncludes rest s
  | _ :: rest => audIncludes rest s

/-- JS truthiness of a value: `""`, `0`, `false` and `null` are falsy;
every array (even `[]`) is truthy. -/
def JsonVal.truthy : JsonVal → Bool
  | .str s => s ≠ ""
  | .num n => n ≠ 0
  | .arr _ => true
  | .boolean b => b
  | .null => false

/-- The decoded JWT payload: each claim is absent (`none`, JS `undefined`)
or a JSON value. -/
structure Payload where
  iss : Option JsonVal := none
  sub : Option JsonVal := none
  aud : Option JsonVal := none
  org_id : Option JsonVal := none
  exp : Option JsonVal := none
  iat : Option JsonVal := none
  nonce : Option JsonVal := none
  azp : Option JsonVal := none
  auth_time : Option JsonVal := none

/-- JS `x && typeof x === 'string'` on an optional claim value: the value
of the claim when it is a truthy string, `none` otherwise.  (`!x ||
typeof x !== 'string'` is `(presentString? x).isNone`.) -/
def presentString? : Option JsonVal → Option String
  | some (.str s) => if s = "" then none else some s
  | _ => none

/-- JS `x && typeof x === 'number'` on an optional claim value: the value
of the claim when it is a truthy (non-zero) number, `none` otherwise. -/
def presentNumber? : Option JsonVal → Option Int
  | some (.num n) => if n = 0 then none else some n
  | _ => none

/-- JS truthiness of an optional string (`undefined` and `""` are falsy). -/
def strOptTruthy : Option String → Bool
  | some s => s ≠ ""
  | none => false

/-- JS truthiness of an optional number (`undefined` and `0` are falsy). -/
def numOptTruthy : Option Int → Bool
  | some n => n ≠ 0
  | none => false

/-- The constructor arguments of `IDTokenValidator` (`Options`). -/
structure Options where
  domain : String
  clientId : String
  idTokenSigningAlg : String := "RS256"
  clockTolerance : Int := 60

/-- The private state of an `IDTokenValidator` (the `jwks`/`secret` key
material lives behind the `jose` boundary and is not part of the claim
pipeline). -/
structure IDTokenValidator where
  alg : String
  audience : String
  issuer : String
  clockTolerance : Int
deriving DecidableEq

/-- The `IDTokenValidator` constructor: `alg` defaults to `"RS256"`,
`clockTolerance` to 60 seconds, and the expected issuer is
`https://` + domain + `/`. -/
def IDTokenValidator.mk' (o : Options) : IDTokenValidator :=
  { alg := o.idTokenSigningAlg
    audience := o.clientId
    issuer := "https://" ++ o.domain ++ "/"
    clockTolerance := o.clockTolerance }

/-- The optional expectations passed to `validate` (`ValidateOptions`). -/
structure ValidateOptions where
  nonce : Option String := none
  maxAge : Option Int := none
  organization : Option String := none
deriving DecidableEq

/-- One constructor per distinct error site of `IDTokenValidator.validate`,
carrying the data interpolated into the corresponding message. -/
inductive IdTokenValidatorError where
  /-- `jose.jwtVerify` rejected (signature or key failure at the library
  boundary). -/
  | joseVerificationFailed
  | algMismatch (found expected : String)
  | issNotPresent
  | issMismatch (expected found : String)
  | subNotPresent
  | audNotPresent
  | audMismatchArr (expected : String) (found : List JsonVal)
  | audMismatchStr (expected found : String)
  | orgNotPresent
  | orgMismatch (expected found : String)
  | expNotPresent
  | expAfter (now expTime : Int)
  | iatNotPresent
  | nonceNotPresent
  | nonceMismatch (expected found : String)
  | azpNotPresent
  | azpMismatch (expected found : String)
  | authTimeNotPresent
  | authTimeExceeded (now authValidUntil : Int)

/-- Boundary model of `jose.jwtVerify(idToken, secret, { issuer, audience })`:
either the library rejects the token, or it resolves with the protected
header's `alg` and the decoded payload.  The library's own internals are
outside this repository and are modelled opaquely at their interface. -/
inductive VerifyOutcome where
  | failed
  | verified (headerAlg : String) (payload : Payload)

/-- JS `Array.isArray(payload.aud) && payload.aud.length > 1`: the guard
under which the authorized-party (`azp`) checks run. -/
def audIsMultiValued (aud : Option JsonVal) : Bool :=
  match aud with
  | some (.arr a) => a.length > 1
  | _ => false

/-- The authentication-time check, final step of the `validate` pipeline
(source lines 157-171). -/
def IDTokenValidator.validateAuthTime (v : IDTokenValidator) (payload : Payload)
    (opts : ValidateOptions) (now : Int) : Except IdTokenValidatorError Payload :=
  -- Authentication time
  if numOptTruthy opts.maxAge then
    match presentNumber? payload.auth_time with
    | none => .error .authTimeNotPresent
    | some t =>
      let authValidUntil := t + opts.maxAge.getD 0 + v.clockTolerance
      if now > authValidUntil then
        .error (.authTimeExceeded now authValidUntil)
      else .ok payload
  else .ok payload

/-- The authorized-party and authentication-time checks closing the
`validate` pipeline (source lines 143-173). -/
def IDTokenValidator.validateAzp (v : IDTokenValidator) (payload : Payload)
    (opts : ValidateOptions) (now : Int) : Except IdTokenValidatorError Payload :=
  -- Authorized party
  if audIsMultiValued payload.aud then
    match presentString? payload.azp with
    | none => .error .azpNotPresent
    | some azp =>
      if azp ≠ v.audience then .error (.azpMismatch v.audience azp)
      else IDTokenValidator.validateAuthTime v payload opts now
  else IDTokenValidator.validateAuthTime v payload opts now

/-- The time-based tail of the `validate` pipeline (source lines 105-173):
expiration, issued-at, nonce, authorized party, authentication time. -/
def IDTokenValidator.validateTimes (v : IDTokenValidator) (payload : Payload)
    (opts : ValidateOptions) (now : Int) : Except IdTokenValidatorError Payload :=
  -- Expires at
  match presentNumber? payload.exp with
  | none => .error .expNotPresent
  | some exp =>
    let expTime := exp + v.clockTolerance
    if now > expTime then .error (.expAfter now expTime)
    else
      -- Issued at
      match presentNumber? payload.iat with
      | none => .error .iatNotPresent
      | some _ =>
        -- Nonce
        if strOptTruthy opts.nonce then
          match presentString? payload.nonce with
          | none => .error .nonceNotPresent
          | some n =>
            if n ≠ opts.nonce.getD "" then
              .error (.nonceMismatch (opts.nonce.getD "") n)
            else IDTokenValidator.validateAzp v payload opts now
        else IDTokenValidator.validateAzp v payload opts now

/-- The organization check and the following pipeline (source lines
90-173). -/
def IDTokenValidator.validateOrg (v : IDTokenValidator) (payload : Payload)
    (opts : ValidateOptions) (now : Int) : Except IdTokenValidatorError Payload :=
  -- Organization
  if strOptTruthy opts.organization then
    match presentString? payload.org_id with
    | none => .error .orgNotPresent
    | some orgId =>
      if orgId ≠ opts.organization.getD "" then
        .error (.orgMismatch (opts.organization.getD "") orgId)
      else IDTokenValidator.validateTimes v payload opts now
  else IDTokenValidator.validateTimes v payload opts now

/-- Transliteration of `IDTokenValidator.validate` (source lines 41-174):
`jose.jwtVerify`, then the ordered claim-check pipeline, terminating with
the first violated check's error, returning the payload when every check
passes.  `now` is `Math.floor(Date.now() / 1000)`. -/
def IDTokenValidator.validate (v : IDTokenValidator) (outcome : VerifyOutcome)
    (opts : ValidateOptions) (now : Int) : Except IdTokenValidatorError Payload :=
  match outcome with
  | .failed => .error .joseVerificationFailed
  | .verified headerAlg payload =>
    -- Check algorithm
    if headerAlg ≠ v.alg then
      .error (.algMismatch headerAlg v.alg)
    else
      -- Issuer
      match presentString? payload.iss with
      | none => .error .issNotPresent
      | some iss =>
        if iss ≠ v.issuer then .error (.issMismatch v.issuer iss)
        else
          -- Subject
          match presentString? payload.sub with
          | none => .error .subNotPresent
          | some _ =>
            -- Audience: `!aud || !(typeof aud === 'string' || Array.isArray(aud))`
            match payload.aud with
            | some (.arr audArr) =>
              -- arrays are always truthy; `includes` is strict equality
              if ¬ audIncludes audArr v.audience then
                .error (.audMismatchArr v.audience audArr)
              else
                IDTokenValidator.validateOrg v payload opts now
            | some (.str audStr) =>
              if audStr = "" then .error .audNotPresent
              else if audStr ≠ v.audience then
                .error (.audMismatchStr v.audience audStr)
              else
                IDTokenValidator.validateOrg v payload opts now
            | _ => .error .audNotPresent

/-- Whether an `Except` result is a success. -/
def exceptIsOk {ε α : Type} : Except ε α → Bool
  | .ok _ => true
  | .error _ => false

/-- Spec step 1 (second half): the algorithm-header check against the
configured signing algorithm. -/
def checkAlg (v : IDTokenValidator) (headerAlg : String) : Option IdTokenValidatorError :=
  if headerAlg ≠ v.alg then some (.algMismatch headerAlg v.alg) else none

/-- Spec step 2: issuer must be a present string equal to the expected
issuer. -/
def checkIss (v : IDTokenValidator) (p : Payload) : Option IdTokenValidatorError :=
  match presentString? p.iss with
  | none => some .issNotPresent
  | some iss => if iss ≠ v.issuer then some (.issMismatch v.issuer iss) else none

/-- Spec step 3: subject must be a present string. -/
def checkSub (p : Payload) : Option IdTokenValidatorError :=
  match presentString? p.sub with
  | none => some .subNotPresent
  | some _ => none

/-- Spec step 4: audience must be a present string equal to the client id,
or an array containing it. -/
def checkAud (v : IDTokenValidator) (p : Payload) : Option IdTokenValidatorError :=
  match p.aud with
  | some (.arr audArr) =>
    if ¬ audIncludes audArr v.audience then
      some (.audMismatchArr v.audience audArr)
    else none
  | some (.str audStr) =>
    if audStr = "" then some .audNotPresent
    else if audStr ≠ v.audience then some (.audMismatchStr v.audience audStr)
    else none
  | _ => some .audNotPresent

/-- Spec step 5: when an organization is expected, `org_id` must be a
present string equal to it. -/
def checkOrg (opts : ValidateOptions) (p : Payload) : Option IdTokenValidatorError :=
  if strOptTruthy opts.organization then
    match presentString? p.org_id with
    | none => some .orgNotPresent
    | some orgId =>
      if orgId ≠ opts.organization.getD "" then
        some (.orgMismatch (opts.organization.getD "") orgId)
      else none
  else none

/-- Spec step 6: `exp` must be a present number and the current time must
not exceed `exp + clockTolerance`. -/
def checkExp (v : IDTokenValidator) (p : Payload) (now : Int) : Option IdTokenValidatorError :=
  match presentNumber? p.exp with
  | none => some .expNotPresent
  | some exp =>
    let expTime := exp + v.clockTolerance
    if now > expTime then some (.expAfter now expTime) else none

/-- Spec step 7: `iat` must be a present number. -/
def checkIat (p : Payload) : Option IdTokenValidatorError :=
  match presentNumber? p.iat with
  | none => some .iatNotPresent
  | some _ => none

/-- Spec step 8: when a nonce is expected, `nonce` must be a present
string equal to it. -/
def checkNonce (opts : ValidateOptions) (p : Payload) : Option IdTokenValidatorError :=
  if strOptTruthy opts.nonce then
    match presentString? p.nonce with
    | none => some .nonceNotPresent
    | some n =>
      if n ≠ opts.nonce.getD "" then some (.nonceMismatch (opts.nonce.getD "") n)
      else none
  else none

/-- Spec step 9: when the audience is an array with more than one entry,
`azp` must be a present string equal to the client id. -/
def checkAzp (v : IDTokenValidator) (p : Payload) : Option IdTokenValidatorError :=
  if audIsMultiValued p.aud then
    match presentString? p.azp with
    | none => some .azpNotPresent
    | some azp =>
      if azp ≠ v.audience then some (.azpMismatch v.audience azp) else none
  else none

/-- Spec step 10: when a max-age is expected, `auth_time` must be a
present number and the current time must not exceed
`auth_time + maxAge + clockTolerance`. -/
def checkAuthTime (v : IDTokenValidator) (opts : ValidateOptions) (p : Payload)
    (now : Int) : Option IdTokenValidatorError :=
  if numOptTruthy opts.maxAge then
    match presentNumber? p.auth_time with
    | none => some .authTimeNotPresent
    | some t =>
      let authValidUntil := t + opts.maxAge.getD 0 + v.clockTolerance
      if now > authValidUntil then some (.authTimeExceeded now authValidUntil)
      else none
  else none

/-- The claim checks following signature verification, in the order the
spec states them: algorithm header, issuer, subject, audience,
organization, expiration, issued-at, nonce, authorized party,
authentication time. -/
def claimChecks (v : IDTokenValidator) (opts : ValidateOptions) (now : Int)
    (headerAlg : String) (p : Payload) : List (Option IdTokenValidatorError) :=
  [checkAlg v headerAlg, checkIss v p, checkSub p, checkAud v p,
   checkOrg opts p, checkExp v p now, checkIat p, checkNonce opts p,
   checkAzp v p, checkAuthTime v opts p now]

/-- Runs an ordered list of checks, stopping at the first violated one and
raising its error; when every check passes, the payload is returned. -/
def runChecks (checks : List (Option IdTokenValidatorError)) (p : Payload) :
    Except IdTokenValidatorError Payload :=
  match checks with
  | [] => .ok p
  | none :: rest => runChecks rest p
  | some e :: _ => .error e

theorem validateAuthTime_eq_runChecks (v : IDTokenValidator) (p : Payload)
    (opts : ValidateOptions) (now : Int) :
    IDTokenValidator.validateAuthTime v p opts now =
      runChecks [checkAuthTime v opts p now] p := by
  unfold IDTokenValidator.validateAuthTime
  by_cases h : numOptTruthy opts.maxAge
  · simp only [h, if_true]
    cases hm : presentNumber? p.auth_time with
    | none => simp [checkAuthTime, h, hm, runChecks]
    | some t =>
      by_cases hgt : now > t + opts.maxAge.getD 0 + v.clockTolerance
      · simp [checkAuthTime, h, hm, hgt, runChecks]
      · simp [checkAuthTime, h, hm, hgt, runChecks]
  · simp [checkAuthTime, h, runChecks]

theorem validateAzp_eq_runChecks (v : IDTokenValidator) (p : Payload)
    (opts : ValidateOptions) (now : Int) :
    IDTokenValidator.validateAzp v p opts now =
      runChecks [checkAzp v p, checkAuthTime v opts p now] p := by
  unfold IDTokenValidator.validateAzp
  by_cases h : audIsMultiValued p.aud
  · simp only [h, if_true]
    cases ha : presentString? p.azp with
    | none => simp [checkAzp, h, ha, runChecks]
    | some azp =>
      by_cases hne : azp ≠ v.audience
      · simp [checkAzp, h, ha, hne, runChecks]
      · simp only [if_neg hne, checkAzp, h, if_true, ha, runChecks]
        exact validateAuthTime_eq_runChecks v p opts now
  · simp only [if_neg h, checkAzp, runChecks]
    exact validateAuthTime_eq_runChecks v p opts now

theorem validateTimes_eq_runChecks (v : IDTokenValidator) (p : Payload)
    (opts : ValidateOptions) (now : Int) :
    IDTokenValidator.validateTimes v p opts now =
      runChecks [checkExp v p now, checkIat p, checkNonce opts p, checkAzp v p,
        checkAuthTime v opts p now] p := by
  unfold IDTokenValidator.validateTimes
  cases he : presentNumber? p.exp with
  | none => simp [checkExp, he, runChecks]
  | some e =>
    by_cases hgt : now > e + v.clockTolerance
    · simp [checkExp, he, hgt, runChecks]
    · simp only [checkExp, he, hgt, if_false, runChecks]
      cases hi : presentNumber? p.iat with
      | none => simp [checkIat, hi, runChecks]
      | some _ =>
        simp only [checkIat, hi, runChecks]
        by_cases hn : strOptTruthy opts.nonce
        · simp only [hn, if_true]
          cases hpn : presentString? p.nonce with
          | none => simp [checkNonce, hn, hpn, runChecks]
          | some n =>
            by_cases hne : n ≠ opts.nonce.getD ""
            · simp [checkNonce, hn, hpn, hne, runChecks]
            · simp only [if_neg hne, checkNonce, hn, if_true, hpn, runChecks]
              exact validateAzp_eq_runChecks v p opts now
        · simp only [if_neg hn, checkNonce, runChecks]
          exact validateAzp_eq_runChecks v p opts now

theorem validateOrg_eq_runChecks (v : IDTokenValidator) (p : Payload)
    (opts : ValidateOptions) (now : Int) :
    IDTokenValidator.validateOrg v p opts now =
      runChecks [checkOrg opts p, checkExp v p now, checkIat p, checkNonce opts p,
        checkAzp v p, checkAuthTime v opts p now] p := by
  unfold IDTokenValidator.validateOrg
  by_cases h : strOptTruthy opts.organization
  · simp only [h, if_true]
    cases ho : presentString? p.org_id with
    | none => simp [checkOrg, h, ho, runChecks]
    | some orgId =>
      by_cases hne : orgId ≠ opts.organization.getD ""
      · simp [checkOrg, h, ho, hne, runChecks]
      · simp only [if_neg hne, checkOrg, h, if_true, ho, runChecks]
        exact validateTimes_eq_runChecks v p opts now
  · simp only [if_neg h, checkOrg, runChecks]
    exact validateTimes_eq_runChecks v p opts now

/-- The transliterated `validate` agrees with the spec-shaped ordered
pipeline: after a successful `jose.jwtVerify`, the result is determined by
the first violated check of `claimChecks`, in that order. -/
theorem validate_verified_eq_runChecks (v : IDTokenValidator) (a : String) (p : Payload)
    (opts : ValidateOptions) (now : Int) :
    IDTokenValidator.validate v (.verified a p) opts now =
      runChecks (claimChecks v opts now a p) p := by
  unfold IDTokenValidator.validate claimChecks
  by_cases hal : a ≠ v.alg
  · simp [checkAlg, hal, runChecks]
  · simp only [if_neg hal, checkAlg, runChecks]
    cases hiss : presentString? p.iss with
    | none => simp [checkIss, hiss, runChecks]
    | some iss =>
      by_cases hne : iss ≠ v.issuer
      · simp [checkIss, hiss, hne, runChecks]
      · simp only [if_neg hne, checkIss, hiss, runChecks]
        cases hsub : presentString? p.sub with
        | none => simp [checkSub, hsub, runChecks]
        | some _ =>
          simp only [checkSub, hsub, runChecks]
          cases haud : p.aud with
          | none => simp [checkAud, haud, runChecks]
          | some audVal =>
            cases audVal with
            | arr audArr =>
              by_cases hc : ¬ audIncludes audArr v.audience
              · simp [checkAud, haud, hc, runChecks]
              · simp only [if_neg hc, checkAud, haud, runChecks]
                exact validateOrg_eq_runChecks v p opts now
            | str audStr =>
              by_cases hemp : audStr = ""
              · simp [checkAud, haud, hemp, runChecks]
              · by_cases hne2 : audStr ≠ v.audience
                · simp [checkAud, haud, hemp, hne2, runChecks]
                · simp only [if_neg hemp, if_neg hne2, checkAud, haud, runChecks]
                  exact validateOrg_eq_runChecks v p opts now
            | num n => simp [checkAud, haud, runChecks]
            | boolean b => simp [checkAud, haud, runChecks]
            | null => simp [checkAud, haud, runChecks]

/-- The error (if any) of an `Except` result. -/
def exceptError? {ε α : Type} : Except ε α → Option ε
  | .ok _ => none
  | .error e => some e

theorem runChecks_append_some (pre : List (Option IdTokenValidatorError))
    (e : IdTokenValidatorError) (rest₁ rest₂ : List (Option IdTokenValidatorError))
    (p q : Payload) :
    runChecks (pre ++ some e :: rest₁) p = runChecks (pre ++ some e :: rest₂) q := by
  induction pre with
  | nil => rfl
  | cons c pre ih =>
    cases c with
    | none => simpa [runChecks] using ih
    | some f => simp [runChecks]

theorem exceptIsOk_runChecks_append_some (pre : List (Option IdTokenValidatorError))
    (e : IdTokenValidatorError) (rest : List (Option IdTokenValidatorError)) (p : Payload) :
    exceptIsOk (runChecks (pre ++ some e :: rest) p) = false := by
  induction pre with
  | nil => rfl
  | cons c pre ih =>
    cases c with
    | none => simpa [runChecks] using ih
    | some f => rfl

theorem exceptError?_runChecks (l : List (Option IdTokenValidatorError)) (p : Payload) :
    exceptError? (runChecks l p) = l.findSome? id := by
  induction l with
  | nil => rfl
  | cons c rest ih =>
    cases c with
    | none => simpa [runChecks, List.findSome?] using ih
    | some f => simp [runChecks, List.findSome?, exceptError?]

/-- C3: `validate` evaluates its checks in exactly the stated order —
signature verification (whose failure short-circuits everything, and which
is immediately followed by the algorithm-header check), then issuer,
subject, audience, organization, expiration, issued-at, nonce, authorized
party, authentication time — terminating on the first violated check: the
result equals running the ordered `claimChecks` list, so the error raised
for a token violating several checks is the one of the earliest check in
that order (each error constructor identifies its claim), and later
checks are never consulted. -/
theorem c3_ordered_claim_check_pipeline (v : IDTokenValidator) (opts : ValidateOptions)
    (now : Int) (a : String) (p : Payload) :
    IDTokenValidator.validate v .failed opts now = .error .joseVerificationFailed ∧
    IDTokenValidator.validate v (.verified a p) opts now =
      runChecks (claimChecks v opts now a p) p :=
  ⟨rfl, validate_verified_eq_runChecks v a p opts now⟩

/-- C4: with every other check passing and `exp` a present number `e`,
validation succeeds precisely while `now ≤ e + clockTolerance` — so it
succeeds at `e + clockTolerance` and fails with the expiration error at
`e + clockTolerance + 1`, and in general fails exactly when the current
time exceeds `exp + clockTolerance`. -/
theorem c4_exp_clock_tolerance_boundary (v : IDTokenValidator) (opts : ValidateOptions)
    (a : String) (p : Payload) (e : Int)
    (halg : checkAlg v a = none) (hiss : checkIss v p = none) (hsub : checkSub p = none)
    (haud : checkAud v p = none) (horg : checkOrg opts p = none)
    (hexp : presentNumber? p.exp = some e) (hiat : checkIat p = none)
    (hnonce : checkNonce opts p = none) (hazp : checkAzp v p = none)
    (hmaxAge : numOptTruthy opts.maxAge = false) :
    ∀ now : Int,
      (now ≤ e + v.clockTolerance →
        IDTokenValidator.validate v (.verified a p) opts now = .ok p) ∧
      (e + v.clockTolerance < now →
        IDTokenValidator.validate v (.verified a p) opts now =
          .error (.expAfter now (e + v.clockTolerance))) := by
  intro now
  constructor <;> intro h <;> rw [validate_verified_eq_runChecks] <;>
    simp [claimChecks, runChecks, halg, hiss, hsub, haud, horg, hiat, hnonce, hazp,
      checkExp, hexp, checkAuthTime, hmaxAge, h, not_lt_of_ge, Int.not_lt.mpr h]

/-- C5: a protected-header algorithm differing from the configured signing
algorithm is rejected with the error naming the found and the expected
algorithm, even though `jose.jwtVerify` succeeded (`VerifyOutcome.verified`,
i.e. the signature itself verified under the key used). -/
theorem c5_algorithm_substitution_rejected (v : IDTokenValidator) (opts : ValidateOptions)
    (now : Int) (a : String) (p : Payload) (h : a ≠ v.alg) :
    IDTokenValidator.validate v (.verified a p) opts now =
      .error (.algMismatch a v.alg) := by
  unfold IDTokenValidator.validate
  simp [h]

/-- A concrete validator configuration used by the witnesses. -/
def sampleValidator : IDTokenValidator :=
  { alg := "RS256", audience := "client-a", issuer := "https://tenant.example.com/",
    clockTolerance := 60 }

/-- A concrete payload passing every check of `sampleValidator` for
current times up to 1060. -/
def samplePayload : Payload :=
  { iss := some (.str "https://tenant.example.com/")
    sub := some (.str "user-1")
    aud := some (.str "client-a")
    exp := some (.num 1000)
    iat := some (.num 900) }

theorem c4_exp_clock_tolerance_boundary_witness :
    IDTokenValidator.validate sampleValidator (.verified "RS256" samplePayload) {} 1060 =
      .ok samplePayload ∧
    IDTokenValidator.validate sampleValidator (.verified "RS256" samplePayload) {} 1061 =
      .error (.expAfter 1061 1060) :=
  ⟨(c4_exp_clock_tolerance_boundary sampleValidator {} "RS256" samplePayload 1000
      rfl rfl rfl rfl rfl rfl rfl rfl rfl rfl 1060).1 (by decide),
   (c4_exp_clock_tolerance_boundary sampleValidator {} "RS256" samplePayload 1000
      rfl rfl rfl rfl rfl rfl rfl rfl rfl rfl 1061).2 (by decide)⟩

theorem c5_algorithm_substitution_rejected_witness :
    IDTokenValidator.validate sampleValidator (.verified "HS256" samplePayload) {} 1000 =
      .error (.algMismatch "HS256" "RS256") :=
  c5_algorithm_substitution_rejected sampleValidator {} 1000 "HS256" samplePayload
    (by decide)

/-- A validator whose configured client id is the empty string. -/
def emptyAudValidator : IDTokenValidator :=
  { alg := "RS256", audience := "", issuer := "https://tenant.example.com/",
    clockTolerance := 60 }

/-- A payload whose `aud` is a two-entry array containing the empty
string and whose `azp` is present, a string, and equal to
`emptyAudValidator`'s client id (the empty string). -/
def emptyAzpPayload : Payload :=
  { iss := some (.str "https://tenant.example.com/")
    sub := some (.str "user-1")
    aud := some (.arr [.str "", .str "client-b"])
    exp := some (.num 1000)
    iat := some (.num 900)
    azp := some (.str "") }

/-- C6 counterexample: this token's `azp` claim is present, a string, and
equal to the configured client id, and its `aud` array has two entries —
by the claim no authorized-party error should be raised — yet `validate`
raises the azp presence error, because `!payload.azp` tests truthiness
rather than key presence. -/
theorem c6_counterexample :
    emptyAzpPayload.azp = some (.str emptyAudValidator.audience) ∧
    IDTokenValidator.validate emptyAudValidator (.verified "RS256" emptyAzpPayload) {} 1000 =
      .error .azpNotPresent :=
  ⟨rfl, rfl⟩

/-- C6 amended: when the earlier checks pass and `aud` is an array with
more than one entry, the result is that of the azp check, which requires
a truthy (non-empty-string) `azp` equal to the client id — presence is
tested by truthiness, so an empty-string `azp` fails even when it equals
an empty client id; when `aud` is a string or a single-element array, the
azp claim is never consulted: the outcome (success or error) is unchanged
if `azp` is removed. -/
theorem c6_azp_required_iff_multivalued_aud (v : IDTokenValidator) (opts : ValidateOptions)
    (now : Int) (a : String) (p : Payload)
    (halg : checkAlg v a = none) (hiss : checkIss v p = none) (hsub : checkSub p = none)
    (haud : checkAud v p = none) (horg : checkOrg opts p = none)
    (hexp : checkExp v p now = none) (hiat : checkIat p = none)
    (hnonce : checkNonce opts p = none) :
    (audIsMultiValued p.aud = true →
      IDTokenValidator.validate v (.verified a p) opts now =
        match presentString? p.azp with
        | none => .error .azpNotPresent
        | some azp =>
          if azp ≠ v.audience then .error (.azpMismatch v.audience azp)
          else IDTokenValidator.validateAuthTime v p opts now) ∧
    (audIsMultiValued p.aud = false →
      exceptError? (IDTokenValidator.validate v (.verified a p) opts now) =
        exceptError?
          (IDTokenValidator.validate v (.verified a { p with azp := none }) opts now)) := by
  constructor <;> intro hm
  · rw [validate_verified_eq_runChecks]
    simp only [claimChecks, runChecks, halg, hiss, hsub, haud, horg, hexp, hiat, hnonce]
    cases hazp : presentString? p.azp with
    | none => simp [checkAzp, hm, hazp, runChecks]
    | some azp =>
      by_cases hne : azp ≠ v.audience
      · simp [checkAzp, hm, hazp, hne, runChecks]
      · simp only [checkAzp, hm, if_true, hazp, if_neg hne, runChecks]
        exact (validateAuthTime_eq_runChecks v p opts now).symm
  · rw [validate_verified_eq_runChecks, validate_verified_eq_runChecks,
      exceptError?_runChecks, exceptError?_runChecks]
    simp [claimChecks, checkIss, checkSub, checkAud, checkOrg, checkExp, checkIat,
      checkNonce, checkAzp, checkAuthTime, hm]

/-- A payload passing every check of `sampleValidator`, with a two-entry
`aud` array and a matching `azp`. -/
def multiAudPayload : Payload :=
  { iss := some (.str "https://tenant.example.com/")
    sub := some (.str "user-1")
    aud := some (.arr [.str "client-a", .str "client-b"])
    exp := some (.num 1000)
    iat := some (.num 900)
    azp := some (.str "client-a") }

theorem c6_azp_required_iff_multivalued_aud_witness :
    IDTokenValidator.validate sampleValidator (.verified "RS256" multiAudPayload) {} 1000 =
      match presentString? multiAudPayload.azp with
      | none => .error .azpNotPresent
      | some azp =>
        if azp ≠ sampleValidator.audience then
          .error (.azpMismatch sampleValidator.audience azp)
        else IDTokenValidator.validateAuthTime sampleValidator multiAudPayload {} 1000 :=
  (c6_azp_required_iff_multivalued_aud sampleValidator {} 1000 "RS256" multiAudPayload
    rfl rfl rfl rfl rfl rfl rfl rfl).1 rfl

/-- C9: a zero-valued `exp` or `iat` claim is indistinguishable from an
absent one — `!payload.exp` / `!payload.iat` test truthiness — so the
corresponding presence check fails with its "must be a number present"
error and validation never succeeds on such a token. -/
theorem c9_zero_exp_iat_rejected (v : IDTokenValidator) (opts : ValidateOptions)
    (now : Int) (a : String) (p : Payload) :
    IDTokenValidator.validate v (.verified a { p with exp := some (.num 0) }) opts now =
      IDTokenValidator.validate v (.verified a { p with exp := none }) opts now ∧
    IDTokenValidator.validate v (.verified a { p with iat := some (.num 0) }) opts now =
      IDTokenValidator.validate v (.verified a { p with iat := none }) opts now ∧
    checkExp v { p with exp := some (.num 0) } now = some .expNotPresent ∧
    checkIat { p with iat := some (.num 0) } = some .iatNotPresent ∧
    exceptIsOk
      (IDTokenValidator.validate v (.verified a { p with exp := some (.num 0) }) opts now) =
      false ∧
    exceptIsOk
      (IDTokenValidator.validate v (.verified a { p with iat := some (.num 0) }) opts now) =
      false := by
  refine ⟨?_, ?_, rfl, rfl, ?_, ?_⟩
  · rw [validate_verified_eq_runChecks, validate_verified_eq_runChecks]
    exact runChecks_append_some
      [checkAlg v a, checkIss v p, checkSub p, checkAud v p, checkOrg opts p]
      .expNotPresent
      [checkIat p, checkNonce opts p, checkAzp v p,
        checkAuthTime v opts { p with exp := some (.num 0) } now]
      [checkIat p, checkNonce opts p, checkAzp v p,
        checkAuthTime v opts { p with exp := none } now]
      _ _
  · rw [validate_verified_eq_runChecks, validate_verified_eq_runChecks]
    exact runChecks_append_some
      [checkAlg v a, checkIss v p, checkSub p, checkAud v p, checkOrg opts p,
        checkExp v p now]
      .iatNotPresent
      [checkNonce opts p, checkAzp v p,
        checkAuthTime v opts { p with iat := some (.num 0) } now]
      [checkNonce opts p, checkAzp v p,
        checkAuthTime v opts { p with iat := none } now]
      _ _
  · rw [validate_verified_eq_runChecks]
    exact exceptIsOk_runChecks_append_some
      [checkAlg v a, checkIss v p, checkSub p, checkAud v p, checkOrg opts p]
      .expNotPresent
      [checkIat p, checkNonce opts p, checkAzp v p,
        checkAuthTime v opts { p with exp := some (.num 0) } now] _
  · rw [validate_verified_eq_runChecks]
    exact exceptIsOk_runChecks_append_some
      [checkAlg v a, checkIss v p, checkSub p, checkAud v p, checkOrg opts p,
        checkExp v p now]
      .iatNotPresent
      [checkNonce opts p, checkAzp v p,
        checkAuthTime v opts { p with iat := some (.num 0) } now] _

/-- C10: an expected nonce equal to `""`, an expected max-age equal to
`0`, and an expected organization equal to `""` each behave exactly as an
absent expectation — the guards `if (nonce)` / `if (maxAge)` /
`if (organization)` test truthiness, so the corresponding check is
skipped entirely. -/
theorem c10_falsy_expectations_skipped (v : IDTokenValidator) (outcome : VerifyOutcome)
    (now : Int) (ma : Option Int) (og : Option String) (no : Option String) :
    IDTokenValidator.validate v outcome
        { nonce := some "", maxAge := ma, organization := og } now =
      IDTokenValidator.validate v outcome
        { nonce := none, maxAge := ma, organization := og } now ∧
    IDTokenValidator.validate v outcome
        { nonce := no, maxAge := some 0, organization := og } now =
      IDTokenValidator.validate v outcome
        { nonce := no, maxAge := none, organization := og } now ∧
    IDTokenValidator.validate v outcome
        { nonce := no, maxAge := ma, organization := some "" } now =
      IDTokenValidator.validate v outcome
        { nonce := no, maxAge := ma, organization := none } now := by
  refine ⟨?_, ?_, ?_⟩ <;> cases outcome with
  | failed => rfl
  | verified a p =>
    rw [validate_verified_eq_runChecks, validate_verified_eq_runChecks]
    rfl

/-! ## Request-execution pipeline (`src/lib/runtime.ts`) -/

/-- A transport response as far as the executor inspects it. -/
structure Response where
  status : Nat
  body : String
deriving DecidableEq

/-- Errors circulating in the executor.  `fetchError` and `timeoutError`
are the classes of `src/lib/errors.ts`, which is not among the sources;
modelled from the spec (§7): `TimeoutError` is the distinct
deadline-elapsed error and `FetchError` the transport-failure error
wrapping its cause, both `Error` subclasses.  `abortError` is
node-fetch's `AbortError`; `nonError` models a thrown non-`Error` JS
value, for which `e instanceof Error` is false. -/
inductive JsError where
  | abortError
  | timeoutError
  | fetchError (cause : JsError) (msg : String)
  | jsError (tag : String)
  | nonError (tag : String)
deriving DecidableEq

/-- JS `e instanceof Error`. -/
def instanceofError : JsError → Bool
  | .nonError _ => false
  | _ => true

/-- One attempt's outcome at the transport boundary (`fetchApi` with the
abort signal wired in): the exchange either resolves with a response or
rejects with an error; the deadline elapsing triggers the abort, making
the exchange reject with `abortError`. -/
inductive TransportOutcome where
  | resp (r : Response)
  | raise (e : JsError)

/-- Transliteration of `BaseAPI.fetchWithTimeout` (lines 130-145): an
`AbortError` — the cancellation raised when the timeout fires — is
translated to the distinct `TimeoutError`; every other rejection passes
through; a resolved response is returned.  (The timer bookkeeping has no
value-level effect.) -/
def fetchWithTimeout : TransportOutcome → Except JsError Response
  | .resp r => .ok r
  | .raise e => if e = .abortError then .error .timeoutError else .error e

/-- The pair a middleware's `pre` hook sees and may replace: current URL
and request options.  The options are threaded through untouched by the
executor, so their type is abstract. -/
structure FetchParams (Init : Type) where
  url : String
  init : Init

/-- A middleware's three optional hooks (`Middleware` interface, lines
364-368); each hook may return a replacement value or nothing (JS
`undefined`), in which case the previous value carries forward. -/
structure Middleware (Init : Type) where
  pre : Option (FetchParams Init → Option (FetchParams Init)) := none
  post : Option (Response → Option Response) := none
  onError : Option (JsError → Option Response → Option Response) := none

/-- Modelled from the spec: `RetryConfiguration` lives in
`src/lib/retry.ts`, which is not among the sources — an `enabled` flag
and a maximum retry count, both optional. -/
structure RetryConfiguration where
  enabled : Option Bool := none
  maxRetries : Option Nat := none

/-- The slice of `Configuration` (lines 12-43) that the executor reads. -/
structure Configuration (Init : Type) where
  baseUrl : String
  middleware : List (Middleware Init) := []
  timeoutDuration : Int := 10000
  retry : Option RetryConfiguration := none

/-- Modelled from the spec: the default maximum number of retries of
`src/lib/retry.ts` (the spec fixes no value; the claims do not depend on
it). -/
def defaultMaxRetries : Nat := 3

/-- Modelled from the spec (§4.3): the retryable status codes —
"typically 5xx and rate-limit responses". -/
def retryableStatus (s : Nat) : Bool := s == 429 || (500 ≤ s && s ≤ 599)

/-- Modelled from the spec: the retry loop of `src/lib/retry.ts` (not
among the sources).  Each retry re-enters the timeout-guarded exchange;
transport failures and retryable statuses are retried while retry budget
remains; the delay computation has no value-level effect and is not
modelled.  Returns the final outcome and the number of attempts made
(`i` is the index of the current attempt). -/
def retryModel (f : Nat → Except JsError Response) : Nat → Nat → Except JsError Response × Nat
  | i, 0 => (f i, i + 1)
  | i, budget + 1 =>
    match f i with
    | .ok r => if retryableStatus r.status then retryModel f (i + 1) budget else (.ok r, i + 1)
    | .error _ => retryModel f (i + 1) budget

/-- Modelled from the spec: entry point of the retry loop, capping
attempts at `maxRetries` retries beyond the first attempt. -/
def retry (f : Nat → Except JsError Response) (cfg : Option RetryConfiguration) :
    Except JsError Response × Nat :=
  retryModel f 0 ((cfg.bind RetryConfiguration.maxRetries).getD defaultMaxRetries)

/-- The `pre`-phase fold of `BaseAPI.fetch` (lines 148-157): each
middleware with a `pre` hook may substitute the fetch params;
`|| fetchParams` keeps the previous value otherwise. -/
def applyPre {Init : Type} (mws : List (Middleware Init)) (fp : FetchParams Init) :
    FetchParams Init :=
  mws.foldl (fun fp mw =>
    match mw.pre with
    | some h => (h fp).getD fp
    | none => fp) fp

/-- The `onError`-phase fold (lines 166-177): starting from the undefined
response (no assignment completed before the throw), each middleware with
an `onError` hook may supply a substitute response; `|| response` keeps
the previous value otherwise. -/
def applyOnError {Init : Type} (mws : List (Middleware Init)) (e : JsError) :
    Option Response :=
  mws.foldl (fun resp mw =>
    match mw.onError with
    | some h =>
      match h e resp with
      | some r => some r
      | none => resp
    | none => resp) none

/-- The `post`-phase fold (lines 189-198): each middleware with a `post`
hook may substitute the response seen by the next middleware and the
caller. -/
def applyPost {Init : Type} (mws : List (Middleware Init)) (r : Response) : Response :=
  mws.foldl (fun r mw =>
    match mw.post with
    | some h => (h r).getD r
    | none => r) r

/-- The exchange step of `BaseAPI.fetch` (lines 158-165): wrapped in the
retry loop when `this.configuration.retry?.enabled !== false` (so also
when no retry configuration is present at all), a single timeout-guarded
call otherwise.  Also returns the number of transport attempts made. -/
def runExchange {Init : Type} (cfg : Configuration Init)
    (attempt : Nat → TransportOutcome) : Except JsError Response × Nat :=
  if (cfg.retry.bind RetryConfiguration.enabled) ≠ some false then
    retry (fun i => fetchWithTimeout (attempt i)) cfg.retry
  else
    (fetchWithTimeout (attempt 0), 1)

/-- The message of the `FetchError` raised when no interceptor recovers a
failed exchange (lines 180-183). -/
def fetchErrorMsg : String :=
  "The request failed and the interceptors did not return an alternative response"

/-- Transliteration of `BaseAPI.fetch` (lines 147-200): `pre` middleware
phase, retry-wrapped or single timeout-guarded exchange, `onError`
recovery phase on failure — an unrecovered `Error` cause is wrapped in
`FetchError`, a non-`Error` cause is rethrown as-is — and `post` phase on
the (possibly recovered) response.  `attempts` gives the transport's
outcome for each attempt, given the (possibly rewritten) fetch params;
the second component counts the transport attempts made. -/
def BaseAPI.fetch {Init : Type} (cfg : Configuration Init) (params : FetchParams Init)
    (attempts : FetchParams Init → Nat → TransportOutcome) :
    Except JsError Response × Nat :=
  let fetchParams := applyPre cfg.middleware params
  match runExchange cfg (attempts fetchParams) with
  | (.ok response, n) => (.ok (applyPost cfg.middleware response), n)
  | (.error e, n) =>
    match applyOnError cfg.middleware e with
    | some response => (.ok (applyPost cfg.middleware response), n)
    | none =>
      if instanceofError e then
        (.error (.fetchError e fetchErrorMsg), n)
      else
        (.error e, n)

/-- Transliteration of `BaseAPI.request` (lines 71-83): run the exchange
pipeline; a response whose status is at least 200 and strictly below 300
is returned to the caller; any other response is handed to the
configured error parser and the resulting error raised.  (The
`response &&` truthiness guard of line 77 always holds for a `Response`
object.) -/
def BaseAPI.request {Init : Type} (cfg : Configuration Init)
    (parseError : Response → JsError) (params : FetchParams Init)
    (attempts : FetchParams Init → Nat → TransportOutcome) :
    Except JsError Response × Nat :=
  match BaseAPI.fetch cfg params attempts with
  | (.ok response, n) =>
    if 200 ≤ response.status ∧ response.status < 300 then (.ok response, n)
    else (.error (parseError response), n)
  | (.error e, n) => (.error e, n)

/-- A scalar query-parameter value (`string | number | null | boolean`).
JS `undefined` never reaches `querystringSingleKey` from `HTTPQuery`. -/
inductive QueryScalar where
  | str (s : String)
  | num (n : Int)
  | boolean (b : Bool)
  | null
deriving DecidableEq

/-- An `HTTPQuery` entry value: a scalar, an array of scalars, or a
nested `HTTPQuery` object (lines 233-241). -/
inductive QueryVal where
  | scalar (v : QueryScalar)
  | arr (elems : List QueryScalar)
  | obj (fields : List (String × QueryVal))

/-- JS `String(value)` on a scalar query value. -/
def jsStringScalar : QueryScalar → String
  | .str s => s
  | .num n => toString n
  | .boolean b => cond b "true" "false"
  | .null => "null"

/-- Transliteration of `querystringSingleKey` (lines 292-310), with
`encodeURIComponent` — a JS builtin at the language boundary — passed in
as `enc`.  An array value becomes repeated `key=` segments joined with
`&`; any other value is stringified (`String(obj)` on a plain object
yields the default `[object Object]`). -/
def querystringSingleKey (enc : String → String) (key : String) : QueryVal → String
  | .arr elems =>
    enc key ++ "=" ++
      String.intercalate ("&" ++ enc key ++ "=")
        (elems.map fun singleValue => enc (jsStringScalar singleValue))
  | .scalar v => enc key ++ "=" ++ enc (jsStringScalar v)
  | .obj _ => enc key ++ "=" ++ enc "[object Object]"

/-- Transliteration of `querystring` (lines 285-290): one segment per
key, empty segments filtered out, joined with `&`.  The association list
stands for the JS object's own enumerable keys in order. -/
def querystring (enc : String → String) (params : List (String × QueryVal)) : String :=
  String.intercalate "&"
    (((params.map fun kv => querystringSingleKey enc kv.1 kv.2).filter
      fun part => part.length > 0))

/-- The URL-building portion of `BaseAPI.createFetchParams` (lines
85-95): base URL concatenated with the (already interpolated) path, with
`?` and the query string appended only when the query map is present and
has at least one key. -/
def createFetchParamsUrl (enc : String → String) (baseUrl path : String)
    (query : Option (List (String × QueryVal))) : String :=
  let url := baseUrl ++ path
  match query with
  | some q => if q.length ≠ 0 then url ++ "?" ++ querystring enc q else url
  | none => url

/-- Whether a string's final character is `c` (stated via the underlying
character list, which computes by structural recursion). -/
def strEndsWithChar (s : String) (c : Char) : Bool := s.data.getLast? == some c

/-- A plain configuration: no middleware, no retry setting (retries are
enabled by default). -/
def plainConfig : Configuration Unit :=
  { baseUrl := "https://tenant.example.com/api/v2" }

/-- A configuration with retries explicitly disabled. -/
def noRetryConfig : Configuration Unit :=
  { baseUrl := "https://tenant.example.com/api/v2"
    retry := some { enabled := some false } }

/-- Concrete fetch params for the witnesses. -/
def sampleParams : FetchParams Unit :=
  { url := "https://tenant.example.com/api/v2/logs/5", init := () }

/-- A transport that times out on every attempt: the abort fires and the
exchange rejects with `AbortError`. -/
def alwaysTimeout : FetchParams Unit → Nat → TransportOutcome :=
  fun _ _ => .raise .abortError

/-- A 200 response and a transport resolving with it on every attempt. -/
def okResponse : Response := { status := 200, body := "log-5" }

def alwaysOkTransport : FetchParams Unit → Nat → TransportOutcome :=
  fun _ _ => .resp okResponse

/-- A 404 response and a transport resolving with it on every attempt. -/
def notFoundResponse : Response := { status := 404, body := "not-found" }

def alwaysNotFound : FetchParams Unit → Nat → TransportOutcome :=
  fun _ _ => .resp notFoundResponse

/-- C1 counterexample: every attempt times out, there is no middleware,
and retries are at their default; the caller receives the
transport-failure `FetchError` wrapping `TimeoutError` — not the bare
distinct timeout error the claim promises. -/
theorem c1_counterexample :
    (BaseAPI.fetch plainConfig sampleParams alwaysTimeout).1 =
      .error (.fetchError .timeoutError fetchErrorMsg) ∧
    (BaseAPI.fetch plainConfig sampleParams alwaysTimeout).1 ≠
      .error JsError.timeoutError := by
  have h1 : (BaseAPI.fetch plainConfig sampleParams alwaysTimeout).1 =
      .error (.fetchError .timeoutError fetchErrorMsg) := rfl
  refine ⟨h1, ?_⟩
  rw [h1]
  simp

/-- C1 amended: when the exchange fails after the retry layer and no
middleware `onError` hook supplies a substitute response, the executor
raises the transport-failure `FetchError` wrapping the cause whenever the
cause is an `Error` — including a timeout: the timeout guard translates
the abort cancellation into the distinct `TimeoutError`, which then
becomes the wrapped cause rather than being raised bare — while a thrown
non-`Error` value propagates unwrapped. -/
theorem c1_transport_failure_wrapping {Init : Type} (cfg : Configuration Init)
    (params : FetchParams Init) (attempts : FetchParams Init → Nat → TransportOutcome)
    (e : JsError)
    (hex : (runExchange cfg (attempts (applyPre cfg.middleware params))).1 = .error e)
    (hrec : applyOnError cfg.middleware e = none) :
    (BaseAPI.fetch cfg params attempts).1 =
      (if instanceofError e then .error (.fetchError e fetchErrorMsg) else .error e) ∧
    fetchWithTimeout (.raise .abortError) = .error .timeoutError := by
  refine ⟨?_, rfl⟩
  cases hq : runExchange cfg (attempts (applyPre cfg.middleware params)) with
  | mk res n =>
    rw [hq] at hex
    cases res with
    | ok r => simp at hex
    | error e2 =>
      simp only at hex
      cases hex
      simp only [BaseAPI.fetch, hq, hrec]
      by_cases hi : instanceofError e <;> simp [hi]

theorem c1_transport_failure_wrapping_witness :
    (BaseAPI.fetch plainConfig sampleParams alwaysTimeout).1 =
      (if instanceofError .timeoutError then
        .error (.fetchError .timeoutError fetchErrorMsg)
      else .error .timeoutError) ∧
    fetchWithTimeout (.raise .abortError) = .error .timeoutError :=
  c1_transport_failure_wrapping plainConfig sampleParams alwaysTimeout .timeoutError rfl rfl

/-- C2: when the exchange pipeline completes with a response, `request`
returns it to the caller iff its status is at least 200 and strictly
below 300, and the error parser is then never consulted (the result is
the same for every parser); for any other status the error parser is
applied to the raw response and the error it produces is raised, for
every parser. -/
theorem c2_2xx_returned_other_parsed {Init : Type} (cfg : Configuration Init)
    (params : FetchParams Init) (attempts : FetchParams Init → Nat → TransportOutcome)
    (r : Response) (n : Nat)
    (h : BaseAPI.fetch cfg params attempts = (.ok r, n)) :
    (200 ≤ r.status ∧ r.status < 300 →
      ∀ parseError : Response → JsError,
        BaseAPI.request cfg parseError params attempts = (.ok r, n)) ∧
    (¬ (200 ≤ r.status ∧ r.status < 300) →
      ∀ parseError : Response → JsError,
        BaseAPI.request cfg parseError params attempts = (.error (parseError r), n)) := by
  refine ⟨?_, ?_⟩ <;> intro hs parseError <;> simp [BaseAPI.request, h, hs]

theorem c2_2xx_returned_other_parsed_witness :
    BaseAPI.request plainConfig (fun r => .jsError r.body) sampleParams alwaysOkTransport =
      (.ok okResponse, 1) ∧
    BaseAPI.request plainConfig (fun r => .jsError r.body) sampleParams alwaysNotFound =
      (.error (.jsError "not-found"), 1) :=
  ⟨(c2_2xx_returned_other_parsed plainConfig sampleParams alwaysOkTransport okResponse 1
      rfl).1 (by decide) (fun r => .jsError r.body),
   (c2_2xx_returned_other_parsed plainConfig sampleParams alwaysNotFound notFoundResponse 1
      rfl).2 (by decide) (fun r => .jsError r.body)⟩

/-- C7 counterexample: with an absent query map but a path that itself
ends in `?`, the built URL does contain a trailing `?` — the code
appends nothing, but strips nothing either. -/
theorem c7_counterexample :
    createFetchParamsUrl id "https://tenant.example.com/api/v2" "/logs?" none =
      "https://tenant.example.com/api/v2/logs?" ∧
    strEndsWithChar "https://tenant.example.com/api/v2/logs?" (Char.ofNat 63) = true := by
  constructor
  · rfl
  · decide

/-- C7 amended: the query logic never appends a dangling `?` — with an
absent or empty query map the built URL is exactly `baseUrl ++ path`, so
it ends with `?` only when `baseUrl ++ path` already does; a `?`
followed by the query string is appended iff the query map is present
with at least one key. -/
theorem c7_query_string_appending (enc : String → String) (baseUrl path : String)
    (query : Option (List (String × QueryVal))) :
    (query = none ∨ query = some [] →
      createFetchParamsUrl enc baseUrl path query = baseUrl ++ path) ∧
    (∀ q, query = some q → q ≠ [] →
      createFetchParamsUrl enc baseUrl path query =
        baseUrl ++ path ++ "?" ++ querystring enc q) ∧
    ((query = none ∨ query = some []) →
      strEndsWithChar (baseUrl ++ path) (Char.ofNat 63) = false →
      strEndsWithChar (createFetchParamsUrl enc baseUrl path query) (Char.ofNat 63) =
        false) := by
  refine ⟨?_, ?_, ?_⟩
  · rintro (rfl | rfl) <;> simp [createFetchParamsUrl]
  · rintro q rfl hq
    simp [createFetchParamsUrl, hq]
  · rintro (rfl | rfl) hw <;> simpa [createFetchParamsUrl] using hw

theorem c7_query_string_appending_witness :
    createFetchParamsUrl id "https://tenant.example.com/api/v2" "/logs/5" none =
      "https://tenant.example.com/api/v2" ++ "/logs/5" ∧
    createFetchParamsUrl id "https://tenant.example.com/api/v2" "/logs/5"
        (some [("page", .scalar (.num 2))]) =
      "https://tenant.example.com/api/v2" ++ "/logs/5" ++ "?" ++
        querystring id [("page", .scalar (.num 2))] ∧
    (strEndsWithChar ("https://tenant.example.com/api/v2" ++ "/logs/5") (Char.ofNat 63) =
        false →
      strEndsWithChar
          (createFetchParamsUrl id "https://tenant.example.com/api/v2" "/logs/5" none)
          (Char.ofNat 63) = false) :=
  ⟨(c7_query_string_appending id "https://tenant.example.com/api/v2" "/logs/5" none).1
      (Or.inl rfl),
   (c7_query_string_appending id "https://tenant.example.com/api/v2" "/logs/5"
      (some [("page", .scalar (.num 2))])).2.1 [("page", .scalar (.num 2))] rfl (by simp),
   (c7_query_string_appending id "https://tenant.example.com/api/v2" "/logs/5" none).2.2
      (Or.inl rfl)⟩

/-- C8: with `retry.enabled` explicitly `false` the timeout-guarded
transport call is made exactly once and the exchange outcome is that of
the single call (no re-attempt); with every other configuration —
including one with no retry setting at all — the exchange is the
retry-wrapped one (retries enabled by default). -/
theorem c8_retry_enabled_by_default {Init : Type} (cfg : Configuration Init)
    (params : FetchParams Init) (attempts : FetchParams Init → Nat → TransportOutcome) :
    ((cfg.retry.bind RetryConfiguration.enabled) = some false →
      (BaseAPI.fetch cfg params attempts).2 = 1 ∧
      runExchange cfg (attempts (applyPre cfg.middleware params)) =
        (fetchWithTimeout (attempts (applyPre cfg.middleware params) 0), 1)) ∧
    ((cfg.retry.bind RetryConfiguration.enabled) ≠ some false →
      runExchange cfg (attempts (applyPre cfg.middleware params)) =
        retry (fun i => fetchWithTimeout (attempts (applyPre cfg.middleware params) i))
          cfg.retry) := by
  refine ⟨?_, ?_⟩ <;> intro h
  · have hre : runExchange cfg (attempts (applyPre cfg.middleware params)) =
        (fetchWithTimeout (attempts (applyPre cfg.middleware params) 0), 1) := by
      simp [runExchange, h]
    refine ⟨?_, hre⟩
    simp only [BaseAPI.fetch, hre]
    cases hw : fetchWithTimeout (attempts (applyPre cfg.middleware params) 0) with
    | ok r => rfl
    | error e =>
      cases ho : applyOnError cfg.middleware e with
      | some r => simp [ho]
      | none =>
        by_cases hi : instanceofError e <;> simp [ho, hi]
  · simp [runExchange, h]

theorem c8_retry_enabled_by_default_witness :
    ((BaseAPI.fetch noRetryConfig sampleParams alwaysTimeout).2 = 1 ∧
      runExchange noRetryConfig (alwaysTimeout (applyPre noRetryConfig.middleware sampleParams)) =
        (fetchWithTimeout (alwaysTimeout (applyPre noRetryConfig.middleware sampleParams) 0),
          1)) ∧
    runExchange plainConfig (alwaysTimeout (applyPre plainConfig.middleware sampleParams)) =
      retry
        (fun i => fetchWithTimeout (alwaysTimeout (applyPre plainConfig.middleware sampleParams) i))
        plainConfig.retry :=
  ⟨(c8_retry_enabled_by_default noRetryConfig sampleParams alwaysTimeout).1 rfl,
   (c8_retry_enabled_by_default plainConfig sampleParams alwaysTimeout).2 (by decide)⟩

end Auth0
